import Mathlib

/-
  Shallow embedding of the log-collector engine of the gonder repository
  (src/pkg/collector/collector.go).  That file contains two complete
  revisions of the package, separated by a document marker: an
  English-commented revision (lines 1-450, called V1 below) and a
  Turkish-commented revision (lines 451-917, called V2 below).  The two
  revisions differ in the severity precedence of detectLogLevel, in the
  rotation check of collectFromSource, in the critical-event emission of
  processSystemLog, and in the fallback severity of parseLogLine; both are
  embedded.

  Strings are modelled at the ASCII fragment the collector manipulates
  (one byte per character); wall-clock dependent fields of SystemLog
  (ID, Timestamp, CollectedAt) are outside the model, every other field is
  embedded.  Go regular expressions are modelled by a small backtracking
  engine whose alternative ordering realises the leftmost-first
  (Perl-style) submatch semantics documented for Go's regexp package; all
  three collector patterns are anchored at the start of the text, so a
  match is attempted at offset 0 only, exactly as FindStringSubmatch
  behaves on them.
-/

set_option maxRecDepth 4000

namespace Gonder

/- ===== Go string helpers (strings.ToLower / Contains / TrimSpace) ===== -/

/-- ASCII case folding, the fragment of strings.ToLower exercised here. -/
def goToLower (c : Char) : Char :=
  if 'A' ≤ c ∧ c ≤ 'Z' then Char.ofNat (c.toNat + 32) else c

/-- strings.ToLower restricted to ASCII input. -/
def strToLower (s : String) : String :=
  String.mk (s.data.map goToLower)

/-- Whether the first list is an initial segment of the second. -/
def isPrefixList : List Char → List Char → Bool
  | [], _ => true
  | _ :: _, [] => false
  | a :: as, b :: bs => a = b && isPrefixList as bs

/-- Substring test on character lists (pattern first). -/
def containsAux (pat : List Char) : List Char → Bool
  | [] => isPrefixList pat []
  | c :: rest => isPrefixList pat (c :: rest) || containsAux pat rest

/-- strings.Contains s sub. -/
def strContains (s sub : String) : Bool :=
  containsAux sub.data s.data

/-- The ASCII white space characters trimmed by strings.TrimSpace. -/
def isSpaceGo (c : Char) : Bool :=
  c = ' ' || c = '\t' || c = '\n' || c = '\r' || c = '\x0b' || c = '\x0c'

/-- strings.TrimSpace restricted to ASCII input. -/
def trimSpace (s : String) : String :=
  String.mk (((s.data.dropWhile isSpaceGo).reverse.dropWhile isSpaceGo).reverse)

/- ===== Regular expressions (the RE2 fragment used by the collector) ===== -/

/-- Character class d of RE2. -/
def reDigit (c : Char) : Bool := decide ('0' ≤ c) && decide (c ≤ '9')

/-- Character class s of RE2: tab, newline, form feed, carriage return, space. -/
def reSpace (c : Char) : Bool :=
  c = '\t' || c = '\n' || c = '\x0c' || c = '\r' || c = ' '

/-- Character class S of RE2. -/
def reNonSpace (c : Char) : Bool := !reSpace c

/-- Character class w of RE2: word characters. -/
def reWord (c : Char) : Bool :=
  reDigit c || (decide ('a' ≤ c) && decide (c ≤ 'z')) ||
    (decide ('A' ≤ c) && decide (c ≤ 'Z')) || c = '_'

/-- The dot class: any character except newline. -/
def reDot (c : Char) : Bool := !(c = '\n')

/-- Negated class excluding the closing square bracket. -/
def reNotRBracket (c : Char) : Bool := !(c = ']')

/-- Negated class excluding the double quote. -/
def reNotQuote (c : Char) : Bool := !(c = '"')

/-- Regular expression abstract syntax: the fragment used by the three
collector patterns.  Quantifiers are restricted to character classes,
which they are applied to in the source patterns; q is the greedy
question-mark operator, realised below as an ordered alternative. -/
inductive RE where
  | eps : RE
  | cls : (Char → Bool) → RE
  | cat : RE → RE → RE
  | alt : RE → RE → RE
  | star : (Char → Bool) → RE
  | plus1 : (Char → Bool) → RE
  | rep : (Char → Bool) → Nat → RE
  | grp : Nat → RE → RE
  | eol : RE

/-- A single literal character. -/
def lit (c : Char) : RE := RE.cls (fun d => d = c)

/-- Concatenation of a sequence of expressions. -/
def reSeq (l : List RE) : RE := l.foldr RE.cat RE.eps

/-- Length of the maximal leading run of characters in the class. -/
def countLeading (p : Char → Bool) : List Char → Nat
  | [] => 0
  | c :: rest => if p c then countLeading p rest + 1 else 0

/-- All ways a regular expression can consume a prefix of the input, in
leftmost-first (Perl/Go) backtracking priority order; each outcome is the
remaining input together with the captures recorded so far (group index
paired with the consumed characters).  Greedy quantifiers enumerate the
longest consumption first; an ordered alternative tries its left branch
first. -/
def runRE : RE → List Char → List (List Char × List (Nat × List Char))
  | .eps, s => [(s, [])]
  | .cls p, s =>
    match s with
    | [] => []
    | c :: rest => if p c then [(rest, [])] else []
  | .cat a b, s =>
    (runRE a s).flatMap (fun r =>
      (runRE b r.1).map (fun r2 => (r2.1, r.2 ++ r2.2)))
  | .alt a b, s => runRE a s ++ runRE b s
  | .star p, s =>
    let k := countLeading p s
    (List.range (k + 1)).map (fun j => (s.drop (k - j), []))
  | .plus1 p, s =>
    let k := countLeading p s
    (List.range k).map (fun j => (s.drop (k - j), []))
  | .rep p n, s =>
    if (s.take n).length = n && (s.take n).all p then [(s.drop n, [])] else []
  | .grp i a, s =>
    (runRE a s).map (fun r => (r.1, (i, s.take (s.length - r.1.length)) :: r.2))
  | .eol, s => if s.isEmpty then [(s, [])] else []

/-- Text captured by a group, the empty string when the group did not
participate in the match, as FindStringSubmatch reports it. -/
def lookupCap (caps : List (Nat × List Char)) (i : Nat) : String :=
  match caps.find? (fun c => c.1 = i) with
  | some c => String.mk c.2
  | none => ""

/-- regexp.FindStringSubmatch for a pattern anchored at the start of the
text: the first outcome in backtracking order is the reported match; the
result lists the whole match followed by the ngroups group captures. -/
def findStringSubmatch (re : RE) (ngroups : Nat) (s : String) :
    Option (List String) :=
  match runRE re s.data with
  | [] => none
  | r :: _ =>
    some (String.mk (s.data.take (s.data.length - r.1.length)) ::
      (List.range ngroups).map (fun i => lookupCap r.2 (i + 1)))

/- ===== The three collector patterns (initDefaultParsers) ===== -/

/-- Syslog pattern of initDefaultParsers. -/
def syslogPattern : RE := reSeq [
  .grp 1 (reSeq [.plus1 reWord, .plus1 reSpace, .plus1 reDigit, .plus1 reSpace,
    .plus1 reDigit, lit ':', .plus1 reDigit, lit ':', .plus1 reDigit]),
  .plus1 reSpace,
  .grp 2 (.plus1 reNonSpace),
  .plus1 reSpace,
  .grp 3 (.plus1 reNonSpace),
  .alt (.grp 4 (reSeq [lit '[', .plus1 reDigit, lit ']'])) .eps,
  .star reSpace, lit ':', .star reSpace,
  .grp 5 (.star reDot),
  .eol]

/-- Nginx access-log pattern of initDefaultParsers. -/
def nginxPattern : RE := reSeq [
  .grp 1 (.plus1 reNonSpace), .plus1 reSpace, lit '-', .plus1 reSpace,
  .plus1 reNonSpace, .plus1 reSpace,
  lit '[', .grp 2 (.plus1 reNotRBracket), lit ']', .plus1 reSpace,
  lit '"', .grp 3 (.plus1 reNonSpace), .plus1 reSpace,
  .grp 4 (.plus1 reNonSpace), .plus1 reSpace, .plus1 reNonSpace, lit '"',
  .plus1 reSpace, .grp 5 (.plus1 reDigit), .plus1 reSpace,
  .grp 6 (.plus1 reDigit), .plus1 reSpace,
  lit '"', .star reNotQuote, lit '"', .plus1 reSpace,
  lit '"', .grp 7 (.star reNotQuote), lit '"']

/-- Docker pattern of initDefaultParsers. -/
def dockerPattern : RE := reSeq [
  .grp 1 (reSeq [.rep reDigit 4, lit '-', .rep reDigit 2, lit '-',
    .rep reDigit 2, lit 'T', .rep reDigit 2, lit ':', .rep reDigit 2,
    lit ':', .rep reDigit 2, lit '.', .plus1 reDigit, lit 'Z']),
  .plus1 reSpace,
  .grp 2 (.star reDot),
  .eol]

/- ===== Collector data model ===== -/

/-- LogSource constants of collector.go. -/
def SourceSyslog : String := "syslog"

def SourceNginx : String := "nginx"

def SourceApache : String := "apache"

def SourceDocker : String := "docker"

def SourceKubernetes : String := "kubernetes"

def SourceCustom : String := "custom"

/-- LogLevel constants of collector.go; LogLevel is a string type in the
source, whose zero value is the empty string. -/
def LevelDebug : String := "debug"

def LevelInfo : String := "info"

def LevelWarn : String := "warn"

def LevelError : String := "error"

def LevelFatal : String := "fatal"

def LevelUnknown : String := "unknown"

/-- The six named LogLevel constants. -/
def levelValues : List String :=
  [LevelDebug, LevelInfo, LevelWarn, LevelError, LevelFatal, LevelUnknown]

/-- LogSourceConfig of collector.go.  The built-in test paths are joined
with the working directory in the source; the path takes no part in any
property below. -/
structure LogSourceConfig where
  name : String := ""
  source : String := ""
  path : String := ""
  pattern : String := ""
  enabled : Bool := false
  tags : List String := []
  interval : Nat := 0
deriving DecidableEq, Repr

/-- LogParser of collector.go: the compiled pattern together with its
group count and the ordered field names. -/
structure LogParser where
  source : String
  pattern : RE
  numGroups : Nat
  fields : List String

/-- SystemLog of collector.go, restricted to its deterministic fields.
ID, Timestamp and CollectedAt are derived from the wall clock in the
source and are outside this model; User is never assigned.  ParsedData is
a string-valued map in every assignment the source performs; it is
modelled as an association list in field order. -/
structure SystemLog where
  source : String := ""
  level : String := ""
  message : String := ""
  host : String := ""
  service : String := ""
  ip : String := ""
  method : String := ""
  path : String := ""
  statusCode : Int := 0
  rawLog : String := ""
  parsedData : List (String × String) := []
  tags : List String := []
deriving DecidableEq, Repr

/-- The syslog parser installed by initDefaultParsers. -/
def syslogParser : LogParser :=
  { source := SourceSyslog, pattern := syslogPattern, numGroups := 5,
    fields := ["timestamp", "host", "service", "pid", "message"] }

/-- The nginx parser installed by initDefaultParsers. -/
def nginxParser : LogParser :=
  { source := SourceNginx, pattern := nginxPattern, numGroups := 7,
    fields := ["ip", "timestamp", "method", "path", "status", "size", "user_agent"] }

/-- The docker parser installed by initDefaultParsers. -/
def dockerParser : LogParser :=
  { source := SourceDocker, pattern := dockerPattern, numGroups := 2,
    fields := ["timestamp", "message"] }

/-- The parsers map after initDefaultParsers (identical in both
revisions): a lookup by source kind. -/
def parsers (src : String) : Option LogParser :=
  if src = SourceSyslog then some syslogParser
  else if src = SourceNginx then some nginxParser
  else if src = SourceDocker then some dockerParser
  else none

/-- parseStatusCode: fmt.Sscanf of a decimal integer; modelled on the
unsigned decimal inputs the patterns can produce (the status group is
digits-only). -/
def parseStatusCode (s : String) : Option Int :=
  let ds := s.data.takeWhile reDigit
  if ds.isEmpty then none
  else some (Int.ofNat (ds.foldl (fun acc c => acc * 10 + (c.toNat - 48)) 0))

/-- One iteration body of the field-mapping loop of parseLogLine, shared
verbatim by both revisions apart from the level detector, which is passed
in.  The ParsedData entry is recorded first, then the switch copies known
fields onto the record; the timestamp case feeds only the wall-clock
Timestamp field, which is outside the model. -/
def applyField (detect : String → String) (lc : SystemLog)
    (field value : String) : SystemLog :=
  let lc := { lc with parsedData := lc.parsedData ++ [(field, value)] }
  if field = "timestamp" then lc
  else if field = "message" then { lc with message := value, level := detect value }
  else if field = "host" then { lc with host := value }
  else if field = "service" then { lc with service := value }
  else if field = "ip" then { lc with ip := value }
  else if field = "method" then { lc with method := value }
  else if field = "path" then { lc with path := value }
  else if field = "status" then
    match parseStatusCode value with
    | some code => { lc with statusCode := code }
    | none => lc
  else lc

/-- The field-mapping loop of parseLogLine: for i, field in parser.Fields,
guarded by i+1 < len of the match slice. -/
def applyFieldsAux (detect : String → String) (ms : List String) :
    SystemLog → List String → Nat → SystemLog
  | lc, [], _ => lc
  | lc, f :: rest, i =>
    applyFieldsAux detect ms
      (if i + 1 < ms.length then applyField detect lc f (ms.getD (i + 1) "")
       else lc)
      rest (i + 1)

/-- Whether the registered pattern for the source kind matches the line
(false also when no parser is registered): the discriminator between the
structured path and the raw fallback of parseLogLine. -/
def matchedParse (line : String) (src : String) : Bool :=
  match parsers src with
  | none => false
  | some p => (findStringSubmatch p.pattern p.numGroups line).isSome

/-- Lifecycle or error event handed to the audit logger; attached carries
the record a critical event reports in its details. -/
structure AuditEvent where
  eventType : String
  attached : Option SystemLog := none
deriving DecidableEq, Repr

/-- What one processSystemLog call emits: the structured console output
(which carries the marshalled record; marshalling a SystemLog cannot fail)
and the audit events. -/
structure SinkOutcome where
  emitted : List SystemLog
  events : List AuditEvent
deriving DecidableEq, Repr

/-- LogCollector state: the parsers map keys with their parsers, the
configured sources and the running flag. -/
structure LogCollector where
  parsers : List (String × LogParser)
  sources : List LogSourceConfig
  running : Bool

/-- What Start returns and does: the new state, the error result, the
audit events emitted and the names of the sources for which a tailer
goroutine is started. -/
structure StartOutcome where
  state : LogCollector
  errMsg : Option String
  events : List AuditEvent
  tailersStarted : List String

/-- What Stop returns and does: the new state and the audit events
emitted. -/
structure StopOutcome where
  state : LogCollector
  events : List AuditEvent

/-- Start of collector.go (identical in both revisions): an already
running collector gets an error and nothing else happens; otherwise the
running flag is set, a start event is emitted and one tailer goroutine is
started per enabled source. -/
def Start (lc : LogCollector) : StartOutcome :=
  if lc.running then
    { state := lc, errMsg := some "log collector already running",
      events := [], tailersStarted := [] }
  else
    { state := { lc with running := true }, errMsg := none,
      events := [{ eventType := "log_collector_start" }],
      tailersStarted := (lc.sources.filter (fun s => s.enabled)).map (fun s => s.name) }

/-- Stop of collector.go (identical in both revisions): unconditionally
clears the running flag and emits a stop event. -/
def Stop (lc : LogCollector) : StopOutcome :=
  { state := { lc with running := false },
    events := [{ eventType := "log_collector_stop" }] }

/-- Lines produced by a bufio.Scanner over the given bytes: split on the
newline byte, no token after a final newline, a trailing carriage return
stripped from each token. -/
def splitOnNL : List Char → List (List Char)
  | [] => [[]]
  | c :: rest =>
    if c = '\n' then [] :: splitOnNL rest
    else
      match splitOnNL rest with
      | [] => [[c]]
      | h :: t => (c :: h) :: t

/-- Strip one trailing carriage return, as bufio.ScanLines does. -/
def dropTrailingCR (l : List Char) : List Char :=
  if l.getLast? = some '\r' then l.dropLast else l

/-- The lines a bufio.Scanner yields over the file content. -/
def scanLines (s : String) : List String :=
  let chunks := splitOnNL s.data
  let chunks := if chunks.getLast? = some ([] : List Char) then chunks.dropLast else chunks
  chunks.map (fun l => String.mk (dropTrailingCR l))

/-- What one poll tick of collectFromSource computes: the offset the
scanner starts reading at, the lines it reads, and the offset stored back
into lastPosition for the next tick.  The file content stands for the
file's bytes at the moment of the tick. -/
structure PollOutcome where
  startOffset : Nat
  linesRead : List String
  newOffset : Nat
deriving DecidableEq, Repr

/- ===== Revision V1 (lines 1-450 of collector.go) ===== -/

namespace V1

/-- detectLogLevel of revision V1: fatal/panic, then error/err, then
warn/warning, then debug, then info, otherwise unknown. -/
def detectLogLevel (message : String) : String :=
  let lower := strToLower message
  if strContains lower "fatal" || strContains lower "panic" then LevelFatal
  else if strContains lower "error" || strContains lower "err" then LevelError
  else if strContains lower "warn" || strContains lower "warning" then LevelWarn
  else if strContains lower "debug" then LevelDebug
  else if strContains lower "info" then LevelInfo
  else LevelUnknown

/-- parseLogLine of revision V1: blank lines yield no record; without a
parser or without a pattern match the raw line becomes the message with a
detected level; otherwise the captures are mapped over the fields. -/
def parseLogLine (line : String) (config : LogSourceConfig) : Option SystemLog :=
  if trimSpace line = "" then none
  else
    let systemLog : SystemLog :=
      { source := config.source, rawLog := line, tags := config.tags, parsedData := [] }
    match parsers config.source with
    | none => some { systemLog with message := line, level := detectLogLevel line }
    | some parser =>
      match findStringSubmatch parser.pattern parser.numGroups line with
      | none => some { systemLog with message := line, level := detectLogLevel line }
      | some ms => some (applyFieldsAux detectLogLevel ms systemLog parser.fields 0)

/-- processSystemLog of revision V1: prints the marshalled record with the
SYSTEM_LOG prefix and emits no audit event. -/
def processSystemLog (log : SystemLog) : SinkOutcome :=
  { emitted := [log], events := [] }

/-- One poll tick of collectFromSource in revision V1: the offset is reset
to 0 when the file is smaller than the stored position, the scanner reads
from there, and the position after the read is stored. -/
def pollCycle (content : String) (lastPosition : Nat) : PollOutcome :=
  let startPos := if content.length < lastPosition then 0 else lastPosition
  { startOffset := startPos,
    linesRead := scanLines (String.mk (content.data.drop startPos)),
    newOffset := content.length }

end V1

/- ===== Revision V2 (lines 451-917 of collector.go) ===== -/

namespace V2

/-- detectLogLevel of revision V2: error/err first, then warn/warning,
then fatal/panic, then debug, then info, with info as the default. -/
def detectLogLevel (message : String) : String :=
  let lowerMsg := strToLower message
  if strContains lowerMsg "error" || strContains lowerMsg "err" then LevelError
  else if strContains lowerMsg "warn" || strContains lowerMsg "warning" then LevelWarn
  else if strContains lowerMsg "fatal" || strContains lowerMsg "panic" then LevelFatal
  else if strContains lowerMsg "debug" then LevelDebug
  else if strContains lowerMsg "info" then LevelInfo
  else LevelInfo

/-- parseLogLine of revision V2: never nil (its caller filters blank
lines); without a parser or without a pattern match the raw line becomes
the message with the constant level unknown; otherwise the captures are
mapped over the fields. -/
def parseLogLine (line : String) (config : LogSourceConfig) : SystemLog :=
  match parsers config.source with
  | none =>
    { source := config.source, level := LevelUnknown, message := line,
      rawLog := line, tags := config.tags }
  | some parser =>
    match findStringSubmatch parser.pattern parser.numGroups line with
    | none =>
      { source := config.source, level := LevelUnknown, message := line,
        rawLog := line, tags := config.tags }
    | some ms =>
      applyFieldsAux detectLogLevel ms
        { source := config.source, rawLog := line, tags := config.tags,
          parsedData := [] }
        parser.fields 0

/-- processSystemLog of revision V2: prints the marshalled record and
additionally emits a critical_system_log audit event carrying the record
when the level is error or fatal. -/
def processSystemLog (log : SystemLog) : SinkOutcome :=
  { emitted := [log],
    events :=
      if log.level = LevelError ∨ log.level = LevelFatal then
        [{ eventType := "critical_system_log", attached := some log }]
      else [] }

/-- One poll tick of collectFromSource in revision V2: the scanner always
starts at the stored position (there is no rotation check), and the file
size at the end of the tick is stored. -/
def pollCycle (content : String) (lastPosition : Nat) : PollOutcome :=
  { startOffset := lastPosition,
    linesRead := scanLines (String.mk (content.data.drop lastPosition)),
    newOffset := content.length }

end V2

/- ===== Built-in configurations and concrete inputs ===== -/

/-- The test_syslog source of initDefaultSources; the source joins the
path with the working directory, which plays no role here. -/
def testSyslogCfg : LogSourceConfig :=
  { name := "test_syslog", source := SourceSyslog, path := "test_logs/syslog",
    enabled := true, tags := ["system", "syslog", "test"], interval := 3 }

/-- The test_auth source of initDefaultSources. -/
def testAuthCfg : LogSourceConfig :=
  { name := "test_auth", source := SourceSyslog, path := "test_logs/auth.log",
    enabled := true, tags := ["security", "auth", "test"], interval := 3 }

/-- The system_syslog source of initDefaultSources (disabled). -/
def systemSyslogCfg : LogSourceConfig :=
  { name := "system_syslog", source := SourceSyslog, path := "/var/log/syslog",
    enabled := false, tags := ["system", "syslog"], interval := 5 }

/-- The system_messages source of initDefaultSources (disabled). -/
def systemMessagesCfg : LogSourceConfig :=
  { name := "system_messages", source := SourceSyslog, path := "/var/log/messages",
    enabled := false, tags := ["system", "messages"], interval := 5 }

/-- The nginx_access source of initDefaultSources (disabled). -/
def nginxCfg : LogSourceConfig :=
  { name := "nginx_access", source := SourceNginx, path := "/var/log/nginx/access.log",
    enabled := false, tags := ["web", "nginx", "access"], interval := 5 }

/-- The auth_log source of initDefaultSources (disabled). -/
def authLogCfg : LogSourceConfig :=
  { name := "auth_log", source := SourceSyslog, path := "/var/log/auth.log",
    enabled := false, tags := ["security", "auth"], interval := 5 }

/-- The source list installed by initDefaultSources. -/
def defaultSources : List LogSourceConfig :=
  [testSyslogCfg, testAuthCfg, systemSyslogCfg, systemMessagesCfg, nginxCfg, authLogCfg]

/-- The parsers map entries installed by initDefaultParsers. -/
def builtinParsers : List (String × LogParser) :=
  [(SourceSyslog, syslogParser), (SourceNginx, nginxParser), (SourceDocker, dockerParser)]

/-- A source of the custom kind, for which no parser is registered. -/
def customCfg : LogSourceConfig :=
  { name := "my_custom", source := SourceCustom, path := "/tmp/custom.log",
    enabled := true, tags := ["custom"], interval := 5 }

/-- A collector as New builds it, before Start. -/
def stoppedCollector : LogCollector :=
  { parsers := builtinParsers, sources := defaultSources, running := false }

/-- The same collector after a successful Start. -/
def runningCollector : LogCollector :=
  { parsers := builtinParsers, sources := defaultSources, running := true }

/-- The severity token precedence list as the specification words it:
token alternatives paired with the resulting level, first match wins. -/
def severityPrecedence : List (List String × String) :=
  [(["fatal", "panic"], LevelFatal), (["error", "err"], LevelError),
   (["warn", "warning"], LevelWarn), (["debug"], LevelDebug),
   (["info"], LevelInfo)]

/-- Severity inference as the specification describes it: a
case-insensitive substring scan of the message, evaluated along the
precedence list, unknown when nothing matches. -/
def inferSeveritySpec (msg : String) : String :=
  match severityPrecedence.find?
      (fun p => p.1.any (fun tok => strContains (strToLower msg) tok)) with
  | some p => p.2
  | none => LevelUnknown

/-- A syslog-kind line whose message portion is empty. -/
def c2line : String := "Jun 15 01:57:48 server01 systemd[1]:"

/-- The record V1.parseLogLine builds for c2line under testSyslogCfg. -/
def c2log : SystemLog :=
  { source := SourceSyslog, level := LevelUnknown, message := "",
    host := "server01", service := "systemd[1]", rawLog := c2line,
    parsedData := [("timestamp", "Jun 15 01:57:48"), ("host", "server01"),
      ("service", "systemd[1]"), ("pid", ""), ("message", "")],
    tags := ["system", "syslog", "test"] }

/-- The record V1.parseLogLine builds for the line hello under customCfg. -/
def c2wlog : SystemLog :=
  { source := SourceCustom, level := LevelUnknown, message := "hello",
    rawLog := "hello", tags := ["custom"] }

/-- The syslog-kind line of end-to-end scenario 1. -/
def c4line : String := "Jun 15 01:57:48 server01 systemd[1]: Started nginx.service"

/-- The record V1.parseLogLine builds for c4line under testSyslogCfg. -/
def c4log : SystemLog :=
  { source := SourceSyslog, level := LevelUnknown, message := "Started nginx.service",
    host := "server01", service := "systemd[1]", rawLog := c4line,
    parsedData := [("timestamp", "Jun 15 01:57:48"), ("host", "server01"),
      ("service", "systemd[1]"), ("pid", ""), ("message", "Started nginx.service")],
    tags := ["system", "syslog", "test"] }

/-- The record V2.parseLogLine builds for c4line under testSyslogCfg;
it differs from c4log only in the level, the V2 detector default. -/
def c4logV2 : SystemLog :=
  { source := SourceSyslog, level := LevelInfo, message := "Started nginx.service",
    host := "server01", service := "systemd[1]", rawLog := c4line,
    parsedData := [("timestamp", "Jun 15 01:57:48"), ("host", "server01"),
      ("service", "systemd[1]"), ("pid", ""), ("message", "Started nginx.service")],
    tags := ["system", "syslog", "test"] }

/-- A combined-log line matching the nginx pattern. -/
def c5line : String :=
  "127.0.0.1 - - [10/Oct/2000:13:55:36 -0700] \"GET /index.html HTTP/1.0\" 200 2326 \"-\" \"Mozilla/4.08\""

/-- The record V1.parseLogLine builds for c5line under nginxCfg: the
nginx field list has no message field, so level is never assigned and
keeps the zero value of the string type. -/
def c5log : SystemLog :=
  { source := SourceNginx, level := "", message := "",
    ip := "127.0.0.1", method := "GET", path := "/index.html", statusCode := 200,
    rawLog := c5line,
    parsedData := [("ip", "127.0.0.1"), ("timestamp", "10/Oct/2000:13:55:36 -0700"),
      ("method", "GET"), ("path", "/index.html"), ("status", "200"),
      ("size", "2326"), ("user_agent", "Mozilla/4.08")],
    tags := ["web", "nginx", "access"] }

/-- The record V1.parseLogLine builds for the line oops under customCfg. -/
def c5wlog : SystemLog :=
  { source := SourceCustom, level := LevelUnknown, message := "oops",
    rawLog := "oops", tags := ["custom"] }

/-- A record of fatal severity. -/
def c6rec : SystemLog :=
  { source := SourceSyslog, level := LevelFatal, message := "fatal: disk full",
    rawLog := "fatal: disk full" }

/-- A record of info severity. -/
def c6wrec : SystemLog :=
  { source := SourceSyslog, level := LevelInfo, message := "all good",
    rawLog := "all good" }

/- ===== Helper lemmas ===== -/

/-- A line with non-blank trimmed form is itself non-empty. -/
theorem ne_empty_of_trim (line : String) (h : trimSpace line ≠ "") : line ≠ "" := by
  intro he
  subst he
  exact h rfl

/-- One field-mapping step never touches the raw line. -/
theorem applyField_rawLog (d : String → String) (lc : SystemLog) (f v : String) :
    (applyField d lc f v).rawLog = lc.rawLog := by
  simp only [applyField]
  split_ifs <;> first | rfl | (split <;> rfl)

/-- One field-mapping step leaves the level alone or sets it to a
detector output. -/
theorem applyField_level (d : String → String) (lc : SystemLog) (f v : String) :
    (applyField d lc f v).level = lc.level ∨ (applyField d lc f v).level = d v := by
  simp only [applyField]
  split_ifs <;>
    first
      | (left; rfl)
      | (right; rfl)
      | (split <;> (left; rfl))

/-- The field-mapping loop never touches the raw line. -/
theorem applyFieldsAux_rawLog (d : String → String) (ms : List String) :
    ∀ (fields : List String) (lc : SystemLog) (i : Nat),
      (applyFieldsAux d ms lc fields i).rawLog = lc.rawLog := by
  intro fields
  induction fields with
  | nil => intro lc i; rfl
  | cons f rest ih =>
    intro lc i
    simp only [applyFieldsAux]
    rw [ih]
    split_ifs with h
    · exact applyField_rawLog d lc f (ms.getD (i + 1) "")
    · rfl

/-- The field-mapping loop keeps the level inside the six named values or
the zero value, provided the detector always lands in the six values. -/
theorem applyFieldsAux_level (d : String → String) (ms : List String)
    (hd : ∀ v, d v ∈ levelValues) :
    ∀ (fields : List String) (lc : SystemLog) (i : Nat),
      lc.level ∈ levelValues ∨ lc.level = "" →
      ((applyFieldsAux d ms lc fields i).level ∈ levelValues ∨
        (applyFieldsAux d ms lc fields i).level = "") := by
  intro fields
  induction fields with
  | nil => intro lc i h; exact h
  | cons f rest ih =>
    intro lc i h
    simp only [applyFieldsAux]
    apply ih
    split_ifs with hc
    · rcases applyField_level d lc f (ms.getD (i + 1) "") with he | he
      · rw [he]; exact h
      · rw [he]; left; exact hd _
    · exact h

/-- The V1 detector only returns the six named values. -/
theorem detectLogLevel_V1_mem (msg : String) : V1.detectLogLevel msg ∈ levelValues := by
  simp only [V1.detectLogLevel]
  split_ifs <;> decide

/-- The V2 detector only returns the six named values. -/
theorem detectLogLevel_V2_mem (msg : String) : V2.detectLogLevel msg ∈ levelValues := by
  simp only [V2.detectLogLevel]
  split_ifs <;> decide

/- ===== Claim C1 ===== -/

/-- C1 counterexample: the V2 revision of detectLogLevel checks error/err
before fatal/panic, so on the input of the claim it returns error, not
the claimed fatal. -/
theorem claim_C1_counterexample :
    V2.detectLogLevel "ERROR: disk fatal" = LevelError ∧ LevelError ≠ LevelFatal :=
  ⟨rfl, by decide⟩

/-- C1 (amended): the V1 revision of detectLogLevel realises exactly the
claimed case-insensitive precedence scan (fatal/panic, error/err,
warn/warning, debug, info, otherwise unknown) and maps "ERROR: disk fatal"
to fatal; the V2 revision returns error on that input. -/
theorem claim_C1_thm :
    (∀ msg : String, V1.detectLogLevel msg = inferSeveritySpec msg) ∧
    V1.detectLogLevel "ERROR: disk fatal" = LevelFatal ∧
    V2.detectLogLevel "ERROR: disk fatal" = LevelError := by
  refine ⟨fun msg => ?_, rfl, rfl⟩
  simp only [V1.detectLogLevel, inferSeveritySpec, severityPrecedence,
    List.find?, List.any_cons, List.any_nil, Bool.or_false]
  cases strContains (strToLower msg) "fatal" <;>
    cases strContains (strToLower msg) "panic" <;>
    cases strContains (strToLower msg) "error" <;>
    cases strContains (strToLower msg) "err" <;>
    cases strContains (strToLower msg) "warn" <;>
    cases strContains (strToLower msg) "warning" <;>
    cases strContains (strToLower msg) "debug" <;>
    cases strContains (strToLower msg) "info" <;> rfl

/- ===== Claim C2 ===== -/

/-- C2 counterexample: a non-blank syslog-kind line whose captured
message group is empty produces a record with an empty message field. -/
theorem claim_C2_counterexample :
    trimSpace c2line ≠ "" ∧
    V1.parseLogLine c2line testSyslogCfg = some c2log ∧
    c2log.message = "" :=
  ⟨by decide, by rfl, rfl⟩

/-- C2 (amended): for every non-blank line and configuration, the V1
record builder preserves the raw line unmodified; the message is the raw
line, hence non-empty, whenever no parser is registered or the pattern
does not match, but when the pattern matches, the message is the captured
message group and may be empty. -/
theorem claim_C2_thm :
    ∀ (line : String) (cfg : LogSourceConfig) (log : SystemLog),
      trimSpace line ≠ "" → V1.parseLogLine line cfg = some log →
      log.rawLog = line ∧
      (matchedParse line cfg.source = false →
        log.message = line ∧ log.message ≠ "") := by
  intro line cfg log htrim hp
  have hline : line ≠ "" := ne_empty_of_trim line htrim
  unfold V1.parseLogLine at hp
  rw [if_neg htrim] at hp
  split at hp
  · injection hp with h
    subst h
    exact ⟨rfl, fun _ => ⟨rfl, hline⟩⟩
  · rename_i parser heq
    split at hp
    · injection hp with h
      subst h
      exact ⟨rfl, fun _ => ⟨rfl, hline⟩⟩
    · rename_i ms hm
      injection hp with h
      subst h
      refine ⟨?_, fun hmf => ?_⟩
      · rw [applyFieldsAux_rawLog]
      · exfalso
        simp [matchedParse, heq, hm] at hmf

/-- C2 witness: the theorem applied to a fallback input. -/
theorem claim_C2_witness :
    c2wlog.rawLog = "hello" ∧ c2wlog.message = "hello" ∧ c2wlog.message ≠ "" := by
  have h := claim_C2_thm "hello" customCfg c2wlog (by decide) (by rfl)
  exact ⟨h.1, (h.2 (by rfl)).1, (h.2 (by rfl)).2⟩

/- ===== Claim C3 ===== -/

/-- C3 counterexample: in the V2 revision of collectFromSource there is
no rotation check, so with a stored offset of 5 and a file of size 2 the
read still begins at offset 5 (and reads nothing), not at 0. -/
theorem claim_C3_counterexample :
    ("ab" : String).length < 5 ∧
    (V2.pollCycle "ab" 5).startOffset = 5 ∧
    (5 : Nat) ≠ 0 ∧
    (V2.pollCycle "ab" 5).linesRead = [] :=
  ⟨by decide, rfl, by decide, rfl⟩

/-- C3 (amended): in the V1 revision a poll cycle resets the offset to 0
before reading when the file shrank below the stored offset and otherwise
reads from the stored offset, the scanner reading from the chosen offset;
the V2 revision always starts at the stored offset and stores the file
size afterwards. -/
theorem claim_C3_thm :
    ∀ (content : String) (n : Nat),
      (content.length < n → (V1.pollCycle content n).startOffset = 0) ∧
      (¬ content.length < n → (V1.pollCycle content n).startOffset = n) ∧
      (V1.pollCycle content n).linesRead =
        scanLines (String.mk (content.data.drop (V1.pollCycle content n).startOffset)) ∧
      (V2.pollCycle content n).startOffset = n ∧
      (V2.pollCycle content n).newOffset = content.length := by
  intro content n
  refine ⟨fun h => ?_, fun h => ?_, rfl, rfl, rfl⟩
  · simp [V1.pollCycle, if_pos h]
  · simp [V1.pollCycle, if_neg h]

/-- C3 witness: the theorem applied to a shrunken and to a grown file. -/
theorem claim_C3_witness :
    (V1.pollCycle "ab" 5).startOffset = 0 ∧
    (V1.pollCycle "abcdefgh" 5).startOffset = 5 :=
  ⟨(claim_C3_thm "ab" 5).1 (by decide),
   (claim_C3_thm "abcdefgh" 5).2.1 (by decide)⟩

/- ===== Claim C4 ===== -/

/-- C4 counterexample: on the scenario line the greedy service group
consumes the bracketed pid, so the extracted service is systemd[1], the
pid capture is empty, and the V1 severity for the message (which contains
no level token) is unknown, not info. -/
theorem claim_C4_counterexample :
    V1.parseLogLine c4line testSyslogCfg = some c4log ∧
    c4log.service ≠ "systemd" ∧
    List.lookup "pid" c4log.parsedData = some "" ∧
    c4log.level ≠ LevelInfo :=
  ⟨by rfl, by decide, by rfl, by decide⟩

/-- C4 (amended): the scenario line extracts fields {timestamp "Jun 15
01:57:48", host "server01", service "systemd[1]", pid "", message
"Started nginx.service"}; the severity is unknown under the V1 revision
and info under the V2 revision, whose detector default differs. -/
theorem claim_C4_thm :
    V1.parseLogLine c4line testSyslogCfg = some c4log ∧
    V2.parseLogLine c4line testSyslogCfg = c4logV2 ∧
    c4log.level = LevelUnknown ∧ c4logV2.level = LevelInfo :=
  ⟨by rfl, by rfl, rfl, rfl⟩

/- ===== Claim C5 ===== -/

/-- C5 counterexample: a non-blank line matching the nginx pattern, whose
field list has no message field, produces a record whose level is the
empty string, outside the six enumerated values. -/
theorem claim_C5_counterexample :
    trimSpace c5line ≠ "" ∧
    V1.parseLogLine c5line nginxCfg = some c5log ∧
    c5log.level ∉ levelValues :=
  ⟨by decide, by rfl, by decide⟩

/-- C5 (amended): every record the V1 builder produces carries a level
that is one of the six enumerated values or the empty string; on the
fallback paths (no parser or no pattern match) it is always one of the
six; when the pattern matches and its field list has no message field, as
for the nginx pattern, the level stays the empty string. -/
theorem claim_C5_thm :
    (∀ (line : String) (cfg : LogSourceConfig) (log : SystemLog),
      V1.parseLogLine line cfg = some log →
      (log.level ∈ levelValues ∨ log.level = "") ∧
      (matchedParse line cfg.source = false → log.level ∈ levelValues)) ∧
    V1.parseLogLine c5line nginxCfg = some c5log ∧ c5log.level = "" := by
  refine ⟨?_, by rfl, rfl⟩
  intro line cfg log hp
  unfold V1.parseLogLine at hp
  split at hp
  · exact absurd hp (by simp)
  · split at hp
    · injection hp with h
      subst h
      exact ⟨Or.inl (detectLogLevel_V1_mem line), fun _ => detectLogLevel_V1_mem line⟩
    · rename_i parser heq
      split at hp
      · injection hp with h
        subst h
        exact ⟨Or.inl (detectLogLevel_V1_mem line), fun _ => detectLogLevel_V1_mem line⟩
      · rename_i ms hm
        injection hp with h
        subst h
        refine ⟨?_, fun hmf => ?_⟩
        · exact applyFieldsAux_level V1.detectLogLevel ms detectLogLevel_V1_mem
            parser.fields _ 0 (Or.inr rfl)
        · exfalso
          simp [matchedParse, heq, hm] at hmf

/-- C5 witness: the theorem applied to a fallback input. -/
theorem claim_C5_witness : c5wlog.level ∈ levelValues :=
  (claim_C5_thm.1 "oops" customCfg c5wlog (by rfl)).2 (by rfl)

/- ===== Claim C6 ===== -/

/-- C6 counterexample: the V1 revision of processSystemLog emits no audit
event at all, so a fatal record produces no critical lifecycle event. -/
theorem claim_C6_counterexample :
    c6rec.level = LevelFatal ∧ (V1.processSystemLog c6rec).events = [] :=
  ⟨rfl, rfl⟩

/-- C6 (amended): in the V2 revision, emitting a record produces the
distinguished critical_system_log event carrying the full record exactly
when its severity is error or fatal, and no event otherwise; the V1
revision only prints the record and never emits a critical event. -/
theorem claim_C6_thm :
    ∀ log : SystemLog,
      ((V2.processSystemLog log).events =
          [{ eventType := "critical_system_log", attached := some log }] ↔
        (log.level = LevelError ∨ log.level = LevelFatal)) ∧
      (¬ (log.level = LevelError ∨ log.level = LevelFatal) →
        (V2.processSystemLog log).events = []) ∧
      (V1.processSystemLog log).events = [] := by
  intro log
  refine ⟨?_, fun h => ?_, rfl⟩
  · unfold V2.processSystemLog
    split_ifs with h
    · simp [h]
    · simp [h]
  · simp [V2.processSystemLog, if_neg h]

/-- C6 witness: the theorem applied to an info record. -/
theorem claim_C6_witness : (V2.processSystemLog c6wrec).events = [] :=
  (claim_C6_thm c6wrec).2.1 (by decide)

/- ===== Claim C7 ===== -/

/-- C7 counterexample: for a source kind without a parser, the V2
revision of parseLogLine assigns the constant severity unknown rather
than the inferred severity, which for this line would be error. -/
theorem claim_C7_counterexample :
    parsers customCfg.source = none ∧
    (V2.parseLogLine "connection error" customCfg).level = LevelUnknown ∧
    V2.detectLogLevel "connection error" = LevelError ∧
    LevelUnknown ≠ LevelError :=
  ⟨rfl, rfl, rfl, by decide⟩

/-- C7 (amended): for every non-blank line from a source kind with no
registered parser, the V1 builder returns a record whose severity is the
inferred severity of the whole line and whose fields mapping is empty;
the V2 builder likewise returns empty fields but the constant severity
unknown. -/
theorem claim_C7_thm :
    ∀ (line : String) (cfg : LogSourceConfig),
      parsers cfg.source = none → trimSpace line ≠ "" →
      V1.parseLogLine line cfg =
        some { source := cfg.source, level := V1.detectLogLevel line,
               message := line, rawLog := line, tags := cfg.tags } ∧
      (V2.parseLogLine line cfg).level = LevelUnknown ∧
      (V2.parseLogLine line cfg).parsedData = [] := by
  intro line cfg hq htrim
  refine ⟨?_, ?_, ?_⟩
  · unfold V1.parseLogLine
    rw [if_neg htrim, hq]
  · unfold V2.parseLogLine
    rw [hq]
  · unfold V2.parseLogLine
    rw [hq]

/-- C7 witness: the theorem applied to a custom-kind source. -/
theorem claim_C7_witness : (V2.parseLogLine "hello" customCfg).level = LevelUnknown :=
  (claim_C7_thm "hello" customCfg rfl (by decide)).2.1

/- ===== Claim C8 ===== -/

/-- C8: Start on a running collector returns the descriptive error and
changes nothing (same state, no events, no tailers started); Start on a
stopped collector succeeds, sets the running flag and starts exactly one
tailer per enabled source, in order, and none for disabled sources. -/
theorem claim_C8_thm :
    ∀ lc : LogCollector,
      (lc.running = true →
        Start lc = { state := lc, errMsg := some "log collector already running",
                     events := [], tailersStarted := [] }) ∧
      (lc.running = false →
        Start lc = { state := { lc with running := true }, errMsg := none,
                     events := [{ eventType := "log_collector_start" }],
                     tailersStarted := (lc.sources.filter (fun s => s.enabled)).map
                       (fun s => s.name) }) := by
  intro lc
  constructor <;> intro h <;> simp [Start, h]

/-- C8 witness: the theorem applied to the built-in collector in both
states; among the six built-in sources exactly the two enabled ones get a
tailer. -/
theorem claim_C8_witness :
    Start runningCollector =
      { state := runningCollector, errMsg := some "log collector already running",
        events := [], tailersStarted := [] } ∧
    (Start stoppedCollector).tailersStarted = ["test_syslog", "test_auth"] := by
  constructor
  · exact (claim_C8_thm runningCollector).1 rfl
  · rw [(claim_C8_thm stoppedCollector).2 rfl]
    rfl

/- ===== Claim C9 ===== -/

/-- C9 counterexample: Stop on an already-stopped collector still emits a
log_collector_stop lifecycle event, so it is observable at the sink. -/
theorem claim_C9_counterexample :
    stoppedCollector.running = false ∧
    (Stop stoppedCollector).events = [{ eventType := "log_collector_stop" }] ∧
    (Stop stoppedCollector).events ≠ ([] : List AuditEvent) :=
  ⟨rfl, rfl, by decide⟩

/-- C9 (amended): Stop on an already-stopped collector leaves the state
unchanged (the running flag stays false) but is not effect-free: it
unconditionally emits the stop lifecycle event. -/
theorem claim_C9_thm :
    ∀ lc : LogCollector, lc.running = false →
      (Stop lc).state = lc ∧
      (Stop lc).events = [{ eventType := "log_collector_stop" }] := by
  intro lc h
  refine ⟨?_, rfl⟩
  show { lc with running := false } = lc
  cases lc with
  | mk p s r =>
    simp only at h
    subst h
    rfl

/-- C9 witness: the theorem applied to the stopped built-in collector. -/
theorem claim_C9_witness : (Stop stoppedCollector).state = stoppedCollector :=
  (claim_C9_thm stoppedCollector rfl).1

/- ===== Claim C10 ===== -/

/-- C10: any message whose lowercase form contains the substring err and
contains neither fatal nor panic gets severity error from both detector
revisions; a record carrying the resulting severity triggers the critical
event in the V2 sink. -/
theorem claim_C10_thm :
    ∀ msg : String,
      strContains (strToLower msg) "err" = true →
      strContains (strToLower msg) "fatal" = false →
      strContains (strToLower msg) "panic" = false →
      V1.detectLogLevel msg = LevelError ∧ V2.detectLogLevel msg = LevelError ∧
      (V2.processSystemLog
          { level := V2.detectLogLevel msg, message := msg, rawLog := msg }).events =
        [{ eventType := "critical_system_log",
           attached := some { level := LevelError, message := msg, rawLog := msg } }] := by
  intro msg herr hfatal hpanic
  have h2 : V2.detectLogLevel msg = LevelError := by
    simp [V2.detectLogLevel, herr]
  refine ⟨?_, h2, ?_⟩
  · simp [V1.detectLogLevel, herr, hfatal, hpanic]
  · rw [h2]
    simp [V2.processSystemLog, LevelError]

/-- C10 witness: the benign word transferring contains err and is
classified as an error by both revisions. -/
theorem claim_C10_witness :
    V1.detectLogLevel "transferring" = LevelError ∧
    V2.detectLogLevel "transferring" = LevelError := by
  have h := claim_C10_thm "transferring" (by rfl) (by rfl) (by rfl)
  exact ⟨h.1, h.2.1⟩

end Gonder
